import Mathlib

/-!
Shallow embedding of `src/psst-gui/src/ui/playlist.rs` from the psst
repository: the playlist list/detail loading commands, the track add/remove
commands with their optimistic mutation hooks, and the result merger/sorter
`sort_playlist`, together with the generic `Promise` machinery the hooks
drive.  `druid::im::Vector` is modelled as `List`, Rust `Result` as
`Except`, track durations as `Nat`, and the `WebApi` collaborator as an
explicit function argument whose invocations are recorded in a call trace.
-/

namespace Psst

/-- Decidable equality for `Except`, so that concrete witnesses can be
evaluated with `decide`. -/
instance {ε α : Type} [DecidableEq ε] [DecidableEq α] : DecidableEq (Except ε α)
  | .ok a, .ok b =>
    if h : a = b then .isTrue (by rw [h]) else .isFalse (by simp [h])
  | .ok _, .error _ => .isFalse (by simp)
  | .error _, .ok _ => .isFalse (by simp)
  | .error e, .error f =>
    if h : e = f then .isTrue (by rw [h]) else .isFalse (by simp [h])

/-- The sort key enumeration from `data/config.rs`
(`Title`/`Artist`/`Album`/`Duration`/`DateAdded`). -/
inductive SortCriteria : Type
  | Title
  | Artist
  | Album
  | Duration
  | DateAdded
deriving DecidableEq, Repr

/-- The sort direction enumeration from `data/config.rs`. -/
inductive SortOrder : Type
  | Ascending
  | Descending
deriving DecidableEq, Repr

/-- The slice of the user configuration read by `sort_playlist`
(`data.config.sort_criteria` and `data.config.sort_order`). -/
structure Config : Type where
  sort_criteria : SortCriteria
  sort_order : SortOrder
deriving DecidableEq, Repr

/-- A track as consumed by `sort_playlist`: `a.name`, `a.artist_name()`,
`a.album_name()` and `a.duration` are the only fields the module reads.
The duration is in milliseconds. -/
structure Track : Type where
  name : String
  artist_name : String
  album_name : String
  duration : Nat
deriving DecidableEq, Repr

/-- The error type of the module; the handlers build
`Error::WebApiError(String)` values. -/
inductive Error : Type
  | WebApiError (msg : String)
deriving DecidableEq, Repr

/-- Modelled from the spec: the generic tri-state `Promise` container
(`Empty` / `Pending(key)` / `Resolved(key, result)`) that the hooks in
`playlist.rs` drive through `defer` and `update`; its implementation lives
outside the file under study. -/
inductive Promise (K T : Type) : Type
  | Empty : Promise K T
  | Pending (key : K) : Promise K T
  | Resolved (key : K) (value : Except Error T) : Promise K T
deriving DecidableEq, Repr

/-- Modelled from the spec: `defer(key)` transitions to `Pending(key)`,
discarding any previous resolved value. -/
def Promise.defer {K T : Type} (_ : Promise K T) (key : K) : Promise K T :=
  Promise.Pending key

/-- Modelled from the spec: `update(key, result)` transitions to
`Resolved(key, result)` if `key` matches the currently pending key, and
otherwise is a no-op (a stale result is dropped without side effects). -/
def Promise.update {K T : Type} [DecidableEq K] (p : Promise K T) (key : K)
    (r : Except Error T) : Promise K T :=
  match p with
  | Promise.Pending k => if k = key then Promise.Resolved key r else p
  | _ => p

/-- A playlist summary; `track_count` is the field the optimistic mutator
adjusts. -/
structure Playlist : Type where
  id : String
  name : String
  description : String
  track_count : Nat
deriving DecidableEq, Repr

/-- A playlist link: the identity carried by command payloads. -/
structure PlaylistLink : Type where
  id : String
  name : String
deriving DecidableEq, Repr

/-- Modelled from the spec: the `Library` owns the collection of playlist
summaries.  The `Promise` wrapper around the collection is omitted here
because the hooks under study only touch the track counts of the stored
summaries. -/
structure Library : Type where
  playlists : List Playlist
deriving DecidableEq, Repr

/-- The resolved value of the detail promise, built by the `LOAD_DETAIL`
after-hook (`PlaylistTracks { id, name, tracks }`). -/
structure PlaylistTracks : Type where
  id : String
  name : String
  tracks : List Track
deriving DecidableEq, Repr

/-- The detail view state: one promise for the tracks of the currently
shown playlist, keyed by the playlist link. -/
structure PlaylistDetail : Type where
  tracks : Promise PlaylistLink PlaylistTracks
deriving DecidableEq, Repr

/-- A user-visible notification, produced by `data.error_alert` and
`data.info_alert`. -/
inductive Alert : Type
  | error (err : Error)
  | info (msg : String)
deriving DecidableEq, Repr

/-- The slice of `AppState` that `playlist.rs` reads and mutates:
the configuration, the library, the detail promise and the alert queue. -/
structure AppState : Type where
  config : Config
  library : Library
  playlist_detail : PlaylistDetail
  alerts : List Alert
deriving DecidableEq, Repr

/-- Modelled from the spec: `data.error_alert(err)` surfaces an error
notification. -/
def AppState.error_alert (data : AppState) (err : Error) : AppState :=
  { data with alerts := data.alerts ++ [Alert.error err] }

/-- Modelled from the spec: `data.info_alert(msg)` surfaces a confirmation
notification. -/
def AppState.info_alert (data : AppState) (msg : String) : AppState :=
  { data with alerts := data.alerts ++ [Alert.info msg] }

/-- Mutable access to the library, as in `data.with_library_mut`. -/
def AppState.with_library_mut (data : AppState) (f : Library → Library) : AppState :=
  { data with library := f data.library }

/-- Modelled from the spec: the optimistic mutator
`library.increment_playlist_track_count(&link)` bumps the matching
playlist's displayed track count by one. -/
def Library.increment_playlist_track_count (library : Library)
    (link : PlaylistLink) : Library :=
  { library with
    playlists := library.playlists.map fun p =>
      if p.id = link.id then { p with track_count := p.track_count + 1 } else p }

/-- Modelled from the spec: the optimistic mutator
`library.decrement_playlist_track_count(&link)` lowers the matching
playlist's displayed track count by one. -/
def Library.decrement_playlist_track_count (library : Library)
    (link : PlaylistLink) : Library :=
  { library with
    playlists := library.playlists.map fun p =>
      if p.id = link.id then { p with track_count := p.track_count - 1 } else p }

/-- The displayed track count of the playlist with the given id, if that
playlist is in the library. -/
def Library.track_count_of (library : Library) (id : String) : Option Nat :=
  (library.playlists.find? fun p => decide (p.id = id)).map Playlist.track_count

/-- Lexicographic comparison of character sequences by code point: the
embedding of Rust's `Ord` for strings (byte-wise comparison of UTF-8 data,
which orders exactly like code-point comparison). -/
def lexCmp : List Char → List Char → Ordering
  | [], [] => Ordering.eq
  | [], _ :: _ => Ordering.lt
  | _ :: _, [] => Ordering.gt
  | a :: as, b :: bs =>
    match compare a b with
    | Ordering.eq => lexCmp as bs
    | o => o

/-- String comparison as performed by `a.name.cmp(&b.name)` in Rust:
case-sensitive lexicographic comparison of the underlying characters. -/
def strCmp (a b : String) : Ordering :=
  lexCmp a.data b.data

/-- The primary comparator of `sort_playlist`, one arm per criterion; the
`SortCriteria::DateAdded` case is the `_ => Ordering::Equal` arm of the
source `match`. -/
def trackCmp (sort_criteria : SortCriteria) (a b : Track) : Ordering :=
  match sort_criteria with
  | SortCriteria.Title => strCmp a.name b.name
  | SortCriteria.Artist => strCmp a.artist_name b.artist_name
  | SortCriteria.Album => strCmp a.album_name b.album_name
  | SortCriteria.Duration => compare a.duration b.duration
  | SortCriteria.DateAdded => Ordering.eq

/-- The full comparator passed to `sorted_by`: the primary comparator,
reversed when the sort order is descending (`method.reverse()`). -/
def sortComparator (sort_criteria : SortCriteria) (sort_order : SortOrder)
    (a b : Track) : Ordering :=
  let method := trackCmp sort_criteria a b
  if sort_order = SortOrder.Descending then method.swap else method

/-- The boolean order underlying the stable sort: `a` may stay before `b`
precisely when the comparator does not say `Greater`.  (`sorted_by` in
itertools is a stable comparator sort.) -/
def sortLE (sort_criteria : SortCriteria) (sort_order : SortOrder)
    (a b : Track) : Bool :=
  decide (sortComparator sort_criteria sort_order a b ≠ Ordering.gt)

/-- The result merger/sorter `sort_playlist` from `playlist.rs`: a failed
fetch is replaced by an empty vector (`unwrap_or_else`), the tracks are
stably sorted by the selected comparator, the whole sequence is reversed
for a descending date-added sort, and the sorted list is returned as `Ok`. -/
def sort_playlist (data : AppState) (result : Except Error (List Track)) :
    Except Error (List Track) :=
  let sort_criteria := data.config.sort_criteria
  let sort_order := data.config.sort_order
  let playlist : List Track :=
    match result with
    | Except.ok tracks => tracks
    | Except.error _ => []
  let sorted_playlist : List Track :=
    playlist.mergeSort (sortLE sort_criteria sort_order)
  let sorted_playlist : List Track :=
    if sort_criteria = SortCriteria.DateAdded ∧ sort_order = SortOrder.Descending
    then sorted_playlist.reverse
    else sorted_playlist
  Except.ok sorted_playlist

/-- Modelled from the spec: a track identity that may or may not resolve to
an addressable URI (the module calls `d.track_id.0.to_uri()`, whose
implementation lives outside the file under study). -/
structure TrackId : Type where
  to_uri : Option String
deriving DecidableEq, Repr

/-- The `ADD_TRACK` command payload. -/
structure PlaylistAddTrack : Type where
  link : PlaylistLink
  track_id : TrackId
deriving DecidableEq, Repr

/-- The `REMOVE_TRACK` command payload. -/
structure PlaylistRemoveTrack : Type where
  link : PlaylistLink
  track_id : TrackId
deriving DecidableEq, Repr

/-- A recorded invocation of the `WebApi` fetch collaborator. -/
inductive ApiCall : Type
  | add_track_to_playlist (playlist_id : String) (track_uri : String)
  | remove_track_from_playlist (playlist_id : String) (track_uri : String)
deriving DecidableEq, Repr

/-- A command re-submitted by a hook (`e.submit_command`). -/
inductive Command : Type
  | LoadList
  | LoadDetail (link : PlaylistLink) (data : AppState)
deriving DecidableEq, Repr

/-- The `ADD_TRACK` handler: resolve the track to a URI, failing with
`Error::WebApiError("Item doesn't have URI")` before any network call when
it has none, and otherwise invoke the collaborator's add operation.  The
second component records the collaborator invocations. -/
def add_track_handler (d : PlaylistAddTrack)
    (api : String → String → Except Error Unit) :
    Except Error Unit × List ApiCall :=
  match d.track_id.to_uri with
  | none => (Except.error (Error.WebApiError "Item doesn't have URI"), [])
  | some uri => (api d.link.id uri, [ApiCall.add_track_to_playlist d.link.id uri])

/-- The `ADD_TRACK` before-hook: optimistically increment the target
playlist's track count. -/
def add_track_before (data : AppState) (d : PlaylistAddTrack) : AppState :=
  data.with_library_mut fun library => library.increment_playlist_track_count d.link

/-- The `ADD_TRACK` after-hook: an error alert on failure, an info alert on
success; nothing else is touched. -/
def add_track_after (data : AppState) (r : Except Error Unit) : AppState :=
  match r with
  | Except.error err => data.error_alert err
  | Except.ok _ => data.info_alert "Added to playlist."

/-- The `REMOVE_TRACK` handler, exactly analogous to the add handler. -/
def remove_track_handler (d : PlaylistRemoveTrack)
    (api : String → String → Except Error Unit) :
    Except Error Unit × List ApiCall :=
  match d.track_id.to_uri with
  | none => (Except.error (Error.WebApiError "Item doesn't have URI"), [])
  | some uri => (api d.link.id uri, [ApiCall.remove_track_from_playlist d.link.id uri])

/-- The `REMOVE_TRACK` before-hook: optimistically decrement the target
playlist's track count. -/
def remove_track_before (data : AppState) (d : PlaylistRemoveTrack) : AppState :=
  data.with_library_mut fun library => library.decrement_playlist_track_count d.link

/-- The `REMOVE_TRACK` after-hook: an alert according to the result, then
unconditionally re-submit `LOAD_DETAIL` for the payload's playlist link with
a clone of the current application state.  The second component records the
submitted commands. -/
def remove_track_after (data : AppState) (p : PlaylistRemoveTrack)
    (r : Except Error Unit) : AppState × List Command :=
  let data :=
    match r with
    | Except.error err => data.error_alert err
    | Except.ok _ => data.info_alert "Removed from playlist."
  (data, [Command.LoadDetail p.link data])

/-- The `LOAD_DETAIL` handler: fetch the playlist's tracks through the
collaborator and post-process the outcome with `sort_playlist`, using the
sort preference in the snapshot carried by the payload. -/
def load_detail_handler (arg : PlaylistLink × AppState)
    (api : String → Except Error (List Track)) : Except Error (List Track) :=
  let d := arg.1
  let data := arg.2
  sort_playlist data (api d.id)

/-- The `LOAD_DETAIL` before-hook: defer the detail promise keyed by the
playlist link. -/
def load_detail_before (data : AppState) (arg : PlaylistLink × AppState) : AppState :=
  { data with
    playlist_detail := { tracks := data.playlist_detail.tracks.defer arg.1 } }

/-- The `LOAD_DETAIL` after-hook: wrap the handler's result into a
`PlaylistTracks` value and `update` the detail promise under the payload's
link. -/
def load_detail_after (data : AppState) (arg : PlaylistLink × AppState)
    (r : Except Error (List Track)) : AppState :=
  let r2 := r.map fun tracks => PlaylistTracks.mk arg.1.id arg.1.name tracks
  { data with
    playlist_detail := { tracks := data.playlist_detail.tracks.update arg.1 r2 } }

/-- Modelled from the spec: the command dispatcher sequences, for one
`ADD_TRACK` submission, the synchronous before-hook, the async handler and
exactly one after-hook invocation carrying the handler's result.  Returns
the final state, the handler result and the collaborator call trace. -/
def run_add_track (data : AppState) (d : PlaylistAddTrack)
    (api : String → String → Except Error Unit) :
    AppState × Except Error Unit × List ApiCall :=
  let data1 := add_track_before data d
  let hr := add_track_handler d api
  let data2 := add_track_after data1 hr.1
  (data2, hr.1, hr.2)

/-- A concrete track used in witnesses. -/
def trackAlpha : Track := Track.mk "Alpha" "ArtA" "AlbX" 100

/-- A second concrete track used in witnesses, distinct from `trackAlpha`. -/
def trackBeta : Track := Track.mk "Beta" "ArtB" "AlbY" 200

/-- A concrete track of duration 30 seconds. -/
def track30s : Track := Track.mk "thirty" "art" "alb" 30000

/-- A concrete track of duration 10 seconds. -/
def track10s : Track := Track.mk "ten" "art" "alb" 10000

/-- A concrete track of duration 20 seconds. -/
def track20s : Track := Track.mk "twenty" "art" "alb" 20000

/-- A concrete application state with the given sort configuration, one
stored playlist and an empty alert queue. -/
def stateWith (sort_criteria : SortCriteria) (sort_order : SortOrder) : AppState :=
  AppState.mk (Config.mk sort_criteria sort_order)
    (Library.mk [Playlist.mk "p1" "My playlist" "desc" 3])
    (PlaylistDetail.mk Promise.Empty) []

/-- A concrete playlist link used in witnesses, matching the playlist
stored by `stateWith`. -/
def link1 : PlaylistLink := PlaylistLink.mk "p1" "My playlist"

/-- A concrete `ADD_TRACK` payload whose track has no addressable URI. -/
def addNoUri : PlaylistAddTrack := PlaylistAddTrack.mk link1 (TrackId.mk none)

/-- A concrete `REMOVE_TRACK` payload whose track has a URI. -/
def removeWithUri : PlaylistRemoveTrack :=
  PlaylistRemoveTrack.mk link1 (TrackId.mk (some "spotify:track:1"))

/-- A collaborator stub that accepts every request. -/
def apiOk : String → String → Except Error Unit := fun _ _ => Except.ok ()

/-- A concrete state configured for a descending date-added sort. -/
def stateDD : AppState := stateWith SortCriteria.DateAdded SortOrder.Descending

/-- A concrete state configured for an ascending title sort. -/
def stateTA : AppState := stateWith SortCriteria.Title SortOrder.Ascending

/-- A concrete state configured for an ascending duration sort. -/
def stateDurAsc : AppState := stateWith SortCriteria.Duration SortOrder.Ascending

/-- A concrete state configured for a descending duration sort. -/
def stateDurDesc : AppState := stateWith SortCriteria.Duration SortOrder.Descending

/-- A concrete transport error. -/
def errNet : Error := Error.WebApiError "network down"

/-- A track-fetch collaborator stub that fails every request. -/
def apiFail : String → Except Error (List Track) := fun _ => Except.error errNet

/-- A concrete state whose detail promise is pending for `link1`. -/
def dataPend : AppState :=
  { stateTA with playlist_detail := PlaylistDetail.mk (Promise.Pending link1) }

/-- A concrete track sharing its title with `trackDupB` but nothing else. -/
def trackDupA : Track := Track.mk "Same" "art1" "alb1" 1

/-- A concrete track sharing its title with `trackDupA` but nothing else. -/
def trackDupB : Track := Track.mk "Same" "art2" "alb2" 2

/-!  Lawfulness of the comparators, needed to apply the stable-sort
lemmas about `List.mergeSort`. -/

/-- Swapping an `Ordering` twice is the identity. -/
theorem ordering_swap_swap (o : Ordering) : o.swap.swap = o := by
  cases o <;> rfl

/-- An `Ordering` swap is not `gt` exactly when the original is not `lt`. -/
theorem ordering_swap_ne_gt (o : Ordering) : o.swap ≠ Ordering.gt ↔ o ≠ Ordering.lt := by
  cases o <;> simp [Ordering.swap]

/-- An `Ordering` swap is `gt` exactly when the original is `lt`. -/
theorem ordering_swap_eq_gt (o : Ordering) : o.swap = Ordering.gt ↔ o = Ordering.lt := by
  cases o <;> simp [Ordering.swap]

/-- `lexCmp` is oriented: comparing in the opposite direction swaps the
outcome. -/
theorem lexCmp_symm : ∀ (as bs : List Char), (lexCmp as bs).swap = lexCmp bs as
  | [], [] => rfl
  | [], _ :: _ => rfl
  | _ :: _, [] => rfl
  | a :: as, b :: bs => by
    have hc : (compare a b).swap = compare b a := Batteries.OrientedCmp.symm a b
    simp only [lexCmp]
    cases e : compare a b with
    | eq =>
      rw [← hc, e]
      exact lexCmp_symm as bs
    | lt => rw [← hc, e]; rfl
    | gt => rw [← hc, e]; rfl

/-- `lexCmp` is transitive in the `≤` sense used by the stable sort. -/
theorem lexCmp_le_trans : ∀ (as bs cs : List Char),
    lexCmp as bs ≠ Ordering.gt → lexCmp bs cs ≠ Ordering.gt →
    lexCmp as cs ≠ Ordering.gt
  | [], _, [], _, _ => by simp [lexCmp]
  | [], _, _ :: _, _, _ => by simp [lexCmp]
  | _ :: _, [], _, h1, _ => by simp [lexCmp] at h1
  | _ :: _, _ :: _, [], _, h2 => by simp [lexCmp] at h2
  | a :: as, b :: bs, c :: cs, h1, h2 => by
    simp only [lexCmp] at h1 h2 ⊢
    cases eab : compare a b with
    | gt => rw [eab] at h1; exact absurd rfl h1
    | lt =>
      cases ebc : compare b c with
      | gt => rw [ebc] at h2; exact absurd rfl h2
      | lt => rw [Batteries.TransCmp.lt_trans eab ebc]; simp
      | eq =>
        rw [Batteries.TransCmp.lt_le_trans eab (by simp [ebc])]; simp
    | eq =>
      cases ebc : compare b c with
      | gt => rw [ebc] at h2; exact absurd rfl h2
      | lt =>
        rw [Batteries.TransCmp.le_lt_trans (by simp [eab]) ebc]; simp
      | eq =>
        rw [eab] at h1
        rw [ebc] at h2
        have hab2 : compare a b ≠ Ordering.gt := by simp [eab]
        have hbc2 : compare b c ≠ Ordering.gt := by simp [ebc]
        have hac : compare a c ≠ Ordering.gt :=
          Batteries.TransCmp.le_trans hab2 hbc2
        cases eac : compare a c with
        | gt => exact absurd eac hac
        | lt => simp
        | eq => exact lexCmp_le_trans as bs cs h1 h2

/-- `strCmp` is a lawful comparator. -/
theorem strCmp_transCmp : Batteries.TransCmp strCmp where
  symm a b := lexCmp_symm a.data b.data
  le_trans h1 h2 := lexCmp_le_trans _ _ _ h1 h2

/-- Pulling a lawful comparator back along a projection keeps it lawful. -/
theorem transCmp_on {α β : Type} {cmp : β → β → Ordering}
    (h : Batteries.TransCmp cmp) (f : α → β) :
    Batteries.TransCmp fun a b => cmp (f a) (f b) where
  symm a b := h.toOrientedCmp.symm (f a) (f b)
  le_trans h1 h2 := h.le_trans h1 h2

/-- Every primary comparator of `sort_playlist` is lawful. -/
theorem trackCmp_transCmp (c : SortCriteria) : Batteries.TransCmp (trackCmp c) := by
  cases c
  case Title => exact transCmp_on strCmp_transCmp Track.name
  case Artist => exact transCmp_on strCmp_transCmp Track.artist_name
  case Album => exact transCmp_on strCmp_transCmp Track.album_name
  case Duration =>
    have hnat : Batteries.TransCmp (compare : Nat → Nat → Ordering) := inferInstance
    exact transCmp_on hnat Track.duration
  case DateAdded =>
    exact { symm := fun _ _ => rfl, le_trans := fun _ h2 => h2 }

/-- The full (possibly reversed) comparator is lawful as well. -/
theorem sortComparator_transCmp (c : SortCriteria) (o : SortOrder) :
    Batteries.TransCmp (sortComparator c o) := by
  have h := trackCmp_transCmp c
  cases o
  case Ascending =>
    exact { symm := fun a b => h.toOrientedCmp.symm a b
            le_trans := fun h1 h2 => h.le_trans h1 h2 }
  case Descending =>
    refine { symm := fun a b => ?_, le_trans := fun h1 h2 => ?_ }
    · show ((trackCmp c a b).swap).swap = (trackCmp c b a).swap
      rw [ordering_swap_swap, ← h.toOrientedCmp.symm b a]
    · show (trackCmp c _ _).swap ≠ Ordering.gt
      rw [ordering_swap_ne_gt]
      rw [show sortComparator c SortOrder.Descending _ _ = (trackCmp c _ _).swap from rfl,
        ordering_swap_ne_gt] at h1 h2
      exact Batteries.TransCmp.ge_trans h1 h2

/-- Unfolding of the boolean sort order. -/
theorem sortLE_eq_true_iff (c : SortCriteria) (o : SortOrder) (a b : Track) :
    sortLE c o a b = true ↔ sortComparator c o a b ≠ Ordering.gt := by
  simp [sortLE]

/-- The boolean sort order is transitive. -/
theorem sortLE_trans (c : SortCriteria) (o : SortOrder) (a b d : Track)
    (h1 : sortLE c o a b) (h2 : sortLE c o b d) : sortLE c o a d := by
  rw [sortLE_eq_true_iff] at h1 h2 ⊢
  exact (sortComparator_transCmp c o).le_trans h1 h2

/-- The boolean sort order is total. -/
theorem sortLE_total (c : SortCriteria) (o : SortOrder) (a b : Track) :
    sortLE c o a b || sortLE c o b a := by
  rw [Bool.or_eq_true, sortLE_eq_true_iff, sortLE_eq_true_iff]
  by_cases h : sortComparator c o a b = Ordering.gt
  · right
    have hs := (sortComparator_transCmp c o).toOrientedCmp.symm a b
    rw [← hs, h]
    simp [Ordering.swap]
  · left; exact h

/-- Sorting an already sorted list again changes nothing. -/
theorem mergeSort_sortLE_idem (c : SortCriteria) (o : SortOrder) (xs : List Track) :
    (xs.mergeSort (sortLE c o)).mergeSort (sortLE c o) = xs.mergeSort (sortLE c o) :=
  List.mergeSort_of_sorted
    (List.sorted_mergeSort (fun a b d h1 h2 => sortLE_trans c o a b d h1 h2)
      (fun a b => sortLE_total c o a b) xs)

/-- Outside the descending date-added configuration, `sort_playlist` on a
successful fetch is exactly the stable sort. -/
theorem sort_playlist_ok_eq (data : AppState) (xs : List Track)
    (h : ¬(data.config.sort_criteria = SortCriteria.DateAdded
        ∧ data.config.sort_order = SortOrder.Descending)) :
    sort_playlist data (Except.ok xs)
      = Except.ok (xs.mergeSort (sortLE data.config.sort_criteria data.config.sort_order)) := by
  simp [sort_playlist, h]

/-- Under the date-added criterion the boolean sort order is constantly
true (the comparator treats every pair as equal). -/
theorem sortLE_dateAdded (o : SortOrder) (a b : Track) :
    sortLE SortCriteria.DateAdded o a b = true := by
  cases o <;> simp [sortLE, sortComparator, trackCmp, Ordering.swap]

/-- Under the date-added criterion the stable sort is the identity. -/
theorem mergeSort_dateAdded_eq (o : SortOrder) (xs : List Track) :
    xs.mergeSort (sortLE SortCriteria.DateAdded o) = xs :=
  List.mergeSort_of_sorted
    (List.pairwise_of_forall fun a b => sortLE_dateAdded o a b)

/-- With criteria date-added and order descending, `sort_playlist` reverses
the fetched sequence. -/
theorem sort_playlist_dateAdded_desc (data : AppState) (xs : List Track)
    (h1 : data.config.sort_criteria = SortCriteria.DateAdded)
    (h2 : data.config.sort_order = SortOrder.Descending) :
    sort_playlist data (Except.ok xs) = Except.ok xs.reverse := by
  simp [sort_playlist, h1, h2, mergeSort_dateAdded_eq]

/-- With criteria date-added and order ascending, `sort_playlist` returns
the fetched sequence unchanged. -/
theorem sort_playlist_dateAdded_asc (data : AppState) (xs : List Track)
    (h1 : data.config.sort_criteria = SortCriteria.DateAdded)
    (h2 : data.config.sort_order = SortOrder.Ascending) :
    sort_playlist data (Except.ok xs) = Except.ok xs := by
  simp [sort_playlist, h1, h2, mergeSort_dateAdded_eq]

/-- On a failed fetch, `sort_playlist` discards the error and returns an
empty successful result. -/
theorem sort_playlist_error (data : AppState) (e : Error) :
    sort_playlist data (Except.error e) = Except.ok [] := by
  simp [sort_playlist]

/-- Searching the bumped playlist list for a given id finds the bumped
version of whatever the search found before. -/
theorem find_map_bump (link : PlaylistLink) : ∀ (l : List Playlist),
    ((l.map fun p =>
        if p.id = link.id then { p with track_count := p.track_count + 1 } else p).find?
          fun p => decide (p.id = link.id))
      = ((l.find? fun p => decide (p.id = link.id)).map
          fun p => { p with track_count := p.track_count + 1 })
  | [] => rfl
  | p :: l => by
    by_cases hp : p.id = link.id
    · simp [hp, List.find?_cons]
    · simp [hp, List.find?_cons, find_map_bump link l]

/-- Incrementing a playlist's track count raises `track_count_of` for its
id by exactly one (and by construction touches no other playlist). -/
theorem track_count_of_increment (library : Library) (link : PlaylistLink) :
    (library.increment_playlist_track_count link).track_count_of link.id
      = (library.track_count_of link.id).map fun n => n + 1 := by
  rcases library with ⟨l⟩
  show ((l.map fun p =>
      if p.id = link.id then { p with track_count := p.track_count + 1 } else p).find?
        fun p => decide (p.id = link.id)).map Playlist.track_count
    = (((l.find? fun p => decide (p.id = link.id)).map Playlist.track_count).map
        fun n => n + 1)
  rw [find_map_bump link l]
  cases hf : l.find? fun p => decide (p.id = link.id) with
  | none => rfl
  | some p => rfl

/-- C2: for every Promise and every sequence `defer(k1)`, `update(k1, r1)`,
`defer(k2)`, a late `update(k1, r2)` with `k1 ≠ k2` is a no-op, and more
generally after `defer(k2)` only an update keyed `k2` can change the
observed state. -/
theorem promise_stale_update_is_noop {K T : Type} [DecidableEq K]
    (p : Promise K T) (k1 k2 : K) (r1 r2 : Except Error T) (h : k1 ≠ k2) :
    (((p.defer k1).update k1 r1).defer k2).update k1 r2
        = ((p.defer k1).update k1 r1).defer k2
      ∧ ∀ (k : K) (r : Except Error T), k ≠ k2 →
        (((p.defer k1).update k1 r1).defer k2).update k r
          = ((p.defer k1).update k1 r1).defer k2 := by
  constructor
  · simp [Promise.defer, Promise.update, Ne.symm h]
  · intro k r hk
    simp [Promise.defer, Promise.update, Ne.symm hk]

/-- Witness for C2 at concrete keys 0 and 1. -/
theorem promise_stale_update_is_noop_witness :
    (0 : Nat) ≠ 1 ∧
      ((((Promise.Empty : Promise Nat Nat).defer 0).update 0
            (Except.ok 5)).defer 1).update 0 (Except.ok 7)
          = (((Promise.Empty : Promise Nat Nat).defer 0).update 0
              (Except.ok 5)).defer 1
        ∧ ∀ (k : Nat) (r : Except Error Nat), k ≠ 1 →
          ((((Promise.Empty : Promise Nat Nat).defer 0).update 0
                (Except.ok 5)).defer 1).update k r
            = (((Promise.Empty : Promise Nat Nat).defer 0).update 0
                (Except.ok 5)).defer 1 :=
  ⟨by decide,
    promise_stale_update_is_noop Promise.Empty 0 1 (Except.ok 5) (Except.ok 7)
      (by decide)⟩

/-- C5: for an AddTrack submission whose track does not resolve to a URI,
the handler fails synchronously with the validation error and the fetch
collaborator is never invoked. -/
theorem add_track_no_uri_validation (d : PlaylistAddTrack)
    (api : String → String → Except Error Unit)
    (h : d.track_id.to_uri = none) :
    add_track_handler d api
      = (Except.error (Error.WebApiError "Item doesn't have URI"),
          ([] : List ApiCall)) := by
  simp [add_track_handler, h]

/-- Witness for C5 at a concrete payload without URI. -/
theorem add_track_no_uri_validation_witness :
    addNoUri.track_id.to_uri = none ∧
      add_track_handler addNoUri apiOk
        = (Except.error (Error.WebApiError "Item doesn't have URI"),
            ([] : List ApiCall)) :=
  ⟨rfl, add_track_no_uri_validation addNoUri apiOk rfl⟩

/-- C6: the RemoveTrack after-hook submits exactly one command whether the
server call succeeded or failed, namely a LoadDetail for the payload's
playlist link carrying the current state snapshot. -/
theorem remove_track_always_reloads_detail (data : AppState)
    (p : PlaylistRemoveTrack) (r : Except Error Unit) :
    (remove_track_after data p r).2
      = [Command.LoadDetail p.link (remove_track_after data p r).1] := by
  cases r <;> rfl

/-- C7: after a failed AddTrack the after-hook only appends an error alert
(the rest of the state, in particular every track count, is unchanged), so
the optimistic increment applied by the before-hook remains in place. -/
theorem add_track_failure_leaves_increment (data : AppState)
    (d : PlaylistAddTrack) (err : Error) :
    add_track_after (add_track_before data d) (Except.error err)
        = { add_track_before data d with
            alerts := (add_track_before data d).alerts ++ [Alert.error err] }
      ∧ (add_track_after (add_track_before data d)
            (Except.error err)).library.track_count_of d.link.id
        = (data.library.track_count_of d.link.id).map fun n => n + 1 := by
  constructor
  · rfl
  · exact track_count_of_increment data.library d.link

/-- C10: an AddTrack whose track has no URI still increments the displayed
track count (before-hook), then fails validation without any collaborator
call, and the after-hook only adds an error alert — the count stays one too
high. -/
theorem add_track_no_uri_count_drift (data : AppState) (d : PlaylistAddTrack)
    (api : String → String → Except Error Unit)
    (h : d.track_id.to_uri = none) :
    (run_add_track data d api).2.2 = []
      ∧ (run_add_track data d api).2.1
          = Except.error (Error.WebApiError "Item doesn't have URI")
      ∧ (run_add_track data d api).1.library.track_count_of d.link.id
          = (data.library.track_count_of d.link.id).map (fun n => n + 1)
      ∧ (run_add_track data d api).1.alerts
          = data.alerts ++ [Alert.error (Error.WebApiError "Item doesn't have URI")] := by
  refine ⟨?_, ?_, ?_, ?_⟩
  · simp [run_add_track, add_track_handler, h]
  · simp [run_add_track, add_track_handler, h]
  · have hl : (run_add_track data d api).1.library
        = data.library.increment_playlist_track_count d.link := by
      simp [run_add_track, add_track_handler, h, add_track_after,
        add_track_before, AppState.with_library_mut, AppState.error_alert]
    rw [hl]
    exact track_count_of_increment data.library d.link
  · simp [run_add_track, add_track_handler, h, add_track_after,
      add_track_before, AppState.with_library_mut, AppState.error_alert]

/-- C1 counterexample: at a concrete pending detail promise and a failing
fetch, the after-hook resolves the promise successfully with an empty track
list — the error is not propagated into the resolved state. -/
theorem sort_playlist_error_not_propagated_cex :
    (load_detail_after dataPend (link1, stateTA)
          (load_detail_handler (link1, stateTA) apiFail)).playlist_detail.tracks
        = Promise.Resolved link1
            (Except.ok (PlaylistTracks.mk "p1" "My playlist" []))
      ∧ ∀ e : Error,
        (load_detail_after dataPend (link1, stateTA)
            (load_detail_handler (link1, stateTA) apiFail)).playlist_detail.tracks
          ≠ Promise.Resolved link1 (Except.error e) := by
  have hh : load_detail_handler (link1, stateTA) apiFail = Except.ok [] :=
    sort_playlist_error stateTA errNet
  have hmain : (load_detail_after dataPend (link1, stateTA)
        (load_detail_handler (link1, stateTA) apiFail)).playlist_detail.tracks
      = Promise.Resolved link1
          (Except.ok (PlaylistTracks.mk "p1" "My playlist" [])) := by
    rw [hh]
    simp [load_detail_after, dataPend, stateTA, stateWith, link1, Promise.update,
      Except.map]
  exact ⟨hmain, fun e => by rw [hmain]; simp⟩

/-- C1 amended: on a failed fetch the merger substitutes an empty sequence
and returns it as a SUCCESS — the error is discarded, so the after-hook
resolves a pending detail promise with `Ok` of an empty `PlaylistTracks`
instead of propagating the error. -/
theorem load_detail_error_swallowed (data snap : AppState) (link : PlaylistLink)
    (e : Error) (api : String → Except Error (List Track))
    (hapi : api link.id = Except.error e)
    (hp : data.playlist_detail.tracks = Promise.Pending link) :
    sort_playlist snap (Except.error e) = Except.ok []
      ∧ (load_detail_after data (link, snap)
            (load_detail_handler (link, snap) api)).playlist_detail.tracks
        = Promise.Resolved link
            (Except.ok (PlaylistTracks.mk link.id link.name [])) := by
  refine ⟨sort_playlist_error snap e, ?_⟩
  simp [load_detail_after, load_detail_handler, hapi, sort_playlist_error, hp,
    Promise.update, Except.map]

/-- Witness for the amended C1 at a concrete pending state. -/
theorem load_detail_error_swallowed_witness :
    apiFail link1.id = Except.error errNet
      ∧ dataPend.playlist_detail.tracks = Promise.Pending link1
      ∧ (sort_playlist stateTA (Except.error errNet) = Except.ok []
        ∧ (load_detail_after dataPend (link1, stateTA)
              (load_detail_handler (link1, stateTA) apiFail)).playlist_detail.tracks
          = Promise.Resolved link1
              (Except.ok (PlaylistTracks.mk link1.id link1.name []))) :=
  ⟨rfl, rfl, load_detail_error_swallowed dataPend stateTA link1 errNet apiFail rfl rfl⟩

/-- C4: under the date-added criterion the primary comparator treats every
pair as equal, so the sort with descending order is exactly the reversal of
the input and with ascending order the identity. -/
theorem date_added_sort_behavior (data : AppState) (xs : List Track)
    (hc : data.config.sort_criteria = SortCriteria.DateAdded) :
    (∀ (o : SortOrder) (a b : Track),
        sortComparator SortCriteria.DateAdded o a b = Ordering.eq)
      ∧ (data.config.sort_order = SortOrder.Descending →
          sort_playlist data (Except.ok xs) = Except.ok xs.reverse)
      ∧ (data.config.sort_order = SortOrder.Ascending →
          sort_playlist data (Except.ok xs) = Except.ok xs) := by
  refine ⟨?_, ?_, ?_⟩
  · intro o a b; cases o <;> simp [sortComparator, trackCmp, Ordering.swap]
  · intro ho; exact sort_playlist_dateAdded_desc data xs hc ho
  · intro ho; exact sort_playlist_dateAdded_asc data xs hc ho

/-- Witness for C4 at a concrete descending date-added state. -/
theorem date_added_sort_behavior_witness :
    stateDD.config.sort_criteria = SortCriteria.DateAdded ∧
      ((∀ (o : SortOrder) (a b : Track),
          sortComparator SortCriteria.DateAdded o a b = Ordering.eq)
        ∧ (stateDD.config.sort_order = SortOrder.Descending →
            sort_playlist stateDD (Except.ok [trackAlpha, trackBeta])
              = Except.ok [trackAlpha, trackBeta].reverse)
        ∧ (stateDD.config.sort_order = SortOrder.Ascending →
            sort_playlist stateDD (Except.ok [trackAlpha, trackBeta])
              = Except.ok [trackAlpha, trackBeta])) :=
  ⟨rfl, date_added_sort_behavior stateDD [trackAlpha, trackBeta] rfl⟩

/-- C3 amended: sorting is idempotent for every configuration except
(date-added, descending). -/
theorem sort_playlist_idempotent (data : AppState) (xs : List Track)
    (h : ¬(data.config.sort_criteria = SortCriteria.DateAdded
        ∧ data.config.sort_order = SortOrder.Descending)) :
    sort_playlist data (sort_playlist data (Except.ok xs))
      = sort_playlist data (Except.ok xs) := by
  rw [sort_playlist_ok_eq data xs h]
  rw [sort_playlist_ok_eq data _ h]
  rw [mergeSort_sortLE_idem]

/-- Witness for the amended C3 at a concrete title-ascending state. -/
theorem sort_playlist_idempotent_witness :
    ¬(stateTA.config.sort_criteria = SortCriteria.DateAdded
        ∧ stateTA.config.sort_order = SortOrder.Descending)
      ∧ sort_playlist stateTA
            (sort_playlist stateTA (Except.ok [trackBeta, trackAlpha]))
        = sort_playlist stateTA (Except.ok [trackBeta, trackAlpha]) :=
  ⟨by decide, sort_playlist_idempotent stateTA [trackBeta, trackAlpha] (by decide)⟩

/-- C3 counterexample: with criteria date-added and order descending the
sort is the reversal, so applying it twice undoes it — it is not
idempotent on a two-element input of distinct tracks. -/
theorem sort_playlist_not_idempotent_cex :
    sort_playlist stateDD
        (sort_playlist stateDD (Except.ok [trackAlpha, trackBeta]))
      ≠ sort_playlist stateDD (Except.ok [trackAlpha, trackBeta]) := by
  have h1 : sort_playlist stateDD (Except.ok [trackAlpha, trackBeta])
      = Except.ok [trackBeta, trackAlpha] := by
    rw [sort_playlist_dateAdded_desc stateDD [trackAlpha, trackBeta] rfl rfl]
    rfl
  have h2 : sort_playlist stateDD (Except.ok [trackBeta, trackAlpha])
      = Except.ok [trackAlpha, trackBeta] := by
    rw [sort_playlist_dateAdded_desc stateDD [trackBeta, trackAlpha] rfl rfl]
    rfl
  rw [h1, h2]
  decide

/-- C9 amended: the title comparator is case-sensitive lexicographic
comparison of the names, and outside the (date-added, descending)
configuration the sort is stable — tracks tied under the selected
comparator keep their relative input order. -/
theorem sort_stable_and_title_lex (data : AppState) (xs : List Track)
    (a b : Track)
    (h : ¬(data.config.sort_criteria = SortCriteria.DateAdded
        ∧ data.config.sort_order = SortOrder.Descending))
    (hab : sortComparator data.config.sort_criteria data.config.sort_order a b
        = Ordering.eq)
    (hsub : [a, b].Sublist xs) :
    (∀ t u : Track,
        trackCmp SortCriteria.Title t u = lexCmp t.name.data u.name.data)
      ∧ trackCmp SortCriteria.Title (Track.mk "a" "x" "y" 0)
            (Track.mk "A" "x" "y" 0)
          ≠ Ordering.eq
      ∧ ∃ ys, sort_playlist data (Except.ok xs) = Except.ok ys
          ∧ [a, b].Sublist ys := by
  refine ⟨fun t u => rfl, by decide, ?_⟩
  refine ⟨_, sort_playlist_ok_eq data xs h, ?_⟩
  refine List.pair_sublist_mergeSort
    (fun x y z hx hy => sortLE_trans _ _ x y z hx hy)
    (fun x y => sortLE_total _ _ x y) ?_ hsub
  rw [sortLE_eq_true_iff, hab]
  simp

/-- Witness for the amended C9: two tracks with the same title keep their
order through a title sort. -/
theorem sort_stable_and_title_lex_witness :
    ¬(stateTA.config.sort_criteria = SortCriteria.DateAdded
        ∧ stateTA.config.sort_order = SortOrder.Descending)
      ∧ sortComparator stateTA.config.sort_criteria stateTA.config.sort_order
            trackDupA trackDupB = Ordering.eq
      ∧ [trackDupA, trackDupB].Sublist [trackDupA, trackBeta, trackDupB]
      ∧ ((∀ t u : Track,
            trackCmp SortCriteria.Title t u = lexCmp t.name.data u.name.data)
        ∧ trackCmp SortCriteria.Title (Track.mk "a" "x" "y" 0)
              (Track.mk "A" "x" "y" 0)
            ≠ Ordering.eq
        ∧ ∃ ys, sort_playlist stateTA
              (Except.ok [trackDupA, trackBeta, trackDupB]) = Except.ok ys
            ∧ [trackDupA, trackDupB].Sublist ys) :=
  ⟨by decide, by decide, by decide,
    sort_stable_and_title_lex stateTA [trackDupA, trackBeta, trackDupB]
      trackDupA trackDupB (by decide) (by decide) (by decide)⟩

/-- C9 counterexample: under (date-added, descending) every pair is tied,
yet the final reversal inverts the relative order of tied tracks, so the
sort is not stable for that configuration. -/
theorem sort_unstable_dateAdded_desc_cex :
    sortComparator SortCriteria.DateAdded SortOrder.Descending trackAlpha
        trackBeta = Ordering.eq
      ∧ [trackAlpha, trackBeta].Sublist [trackAlpha, trackBeta]
      ∧ sort_playlist stateDD (Except.ok [trackAlpha, trackBeta])
          = Except.ok [trackBeta, trackAlpha]
      ∧ ¬ [trackAlpha, trackBeta].Sublist [trackBeta, trackAlpha] := by
  refine ⟨by decide, by decide, ?_, by decide⟩
  rw [sort_playlist_dateAdded_desc stateDD [trackAlpha, trackBeta] rfl rfl]
  rfl

/-- C8: sorting `[30s, 10s, 20s]` by duration ascending yields
`[10s, 20s, 30s]`, descending yields `[30s, 20s, 10s]`, and the descending
comparator is the swap of the ascending one. -/
theorem duration_sort_example :
    sort_playlist stateDurAsc (Except.ok [track30s, track10s, track20s])
        = Except.ok [track10s, track20s, track30s]
      ∧ sort_playlist stateDurDesc (Except.ok [track30s, track10s, track20s])
        = Except.ok [track30s, track20s, track10s]
      ∧ ∀ a b : Track,
        sortComparator SortCriteria.Duration SortOrder.Descending a b
          = (sortComparator SortCriteria.Duration SortOrder.Ascending a b).swap := by
  refine ⟨?_, ?_, fun a b => rfl⟩
  · simp [sort_playlist, stateDurAsc, stateWith, List.mergeSort, List.splitInTwo,
      List.splitAt_eq, List.merge, sortLE, sortComparator, trackCmp,
      track30s, track10s, track20s, ordering_swap_eq_gt, Nat.compare_eq_gt,
      Nat.compare_eq_lt]
  · simp [sort_playlist, stateDurDesc, stateWith, List.mergeSort, List.splitInTwo,
      List.splitAt_eq, List.merge, sortLE, sortComparator, trackCmp,
      track30s, track10s, track20s, ordering_swap_eq_gt, Nat.compare_eq_gt,
      Nat.compare_eq_lt]

/-- Witness for C10 at a concrete state and payload. -/
theorem add_track_no_uri_count_drift_witness :
    addNoUri.track_id.to_uri = none ∧
      ((run_add_track stateTA addNoUri apiOk).2.2 = []
        ∧ (run_add_track stateTA addNoUri apiOk).2.1
            = Except.error (Error.WebApiError "Item doesn't have URI")
        ∧ (run_add_track stateTA addNoUri apiOk).1.library.track_count_of
              addNoUri.link.id
            = (stateTA.library.track_count_of addNoUri.link.id).map (fun n => n + 1)
        ∧ (run_add_track stateTA addNoUri apiOk).1.alerts
            = stateTA.alerts
              ++ [Alert.error (Error.WebApiError "Item doesn't have URI")]) :=
  ⟨rfl, add_track_no_uri_count_drift stateTA addNoUri apiOk rfl⟩

end Psst
